import Mathlib

/-!
# Verification of the commodity-map scoring and caching core

Shallow embedding of the repository's scoring engine (`CommodityScorer`),
grid cache (`CacheManager`), fetch coordinator (`DataManager.fetchData`) and
web-side weight setter (`ScoringMap.setWeight`), together with theorems
settling the specification claims about them.

JavaScript numbers are modelled as real numbers (`ℝ`); `Math.max/min/abs`
become `max/min/abs`, `Math.sqrt`/`Math.exp` become `Real.sqrt`/`Real.exp`,
and `Math.round` is modelled exactly as JavaScript's round-half-up.
-/

namespace ConuhacksCLM

/-! ## CommodityScorer configuration

From the `CommodityScorer` constructor: `maxDistance`, `decayFactor`,
`varianceAmplification` (defaults 5000 / 2 / 1.5). -/

structure ScorerConfig where
  maxDistance : ℝ
  decayFactor : ℝ
  varianceAmplification : ℝ

/-- Source `Math.max(0, Math.min(100, x))` — the 0..100 clamp used throughout the scorer. -/
noncomputable def clamp100 (x : ℝ) : ℝ := max 0 (min 100 x)

/-- Source `weights.reduce((sum, w) => sum + w, 0) / weights.length` — the mean used by
`calculateVarianceMultipliers`. -/
noncomputable def meanOf (ws : List ℝ) : ℝ := ws.sum / ws.length

/-- Source `weights.reduce((sum, w) => sum + Math.pow(w - mean, 2), 0) / weights.length` —
the population variance used by `calculateVarianceMultipliers`. -/
noncomputable def varianceOf (ws : List ℝ) : ℝ :=
  ((ws.map fun w => (w - meanOf ws) ^ 2).sum) / ws.length

theorem clamp100_of_nonpos {x : ℝ} (h : x ≤ 0) : clamp100 x = 0 := by
  unfold clamp100
  rw [min_eq_right (le_trans h (by norm_num)), max_eq_left h]

theorem clamp100_of_ge {x : ℝ} (h : 100 ≤ x) : clamp100 x = 100 := by
  unfold clamp100
  rw [min_eq_left h, max_eq_right (by norm_num)]

theorem clamp100_of_mem {x : ℝ} (h0 : 0 ≤ x) (h1 : x ≤ 100) : clamp100 x = x := by
  unfold clamp100
  rw [min_eq_right h1, max_eq_right h0]

/-- Source `Math.sqrt(variance)` — the population standard deviation. -/
noncomputable def stdDevOf (ws : List ℝ) : ℝ := Real.sqrt (varianceOf ws)

/-- Source `CommodityScorer.calculateVarianceMultipliers` (src/unnamed/part_002, lines 135-167):
early-returns `[]` for an empty input and the input itself for a single weight or a
zero standard deviation; otherwise maps each weight to
`clamp(mean + (w - mean) * (1 + (|w - mean| / stdDev) * varianceAmplification), 0, 100)`. -/
noncomputable def calculateVarianceMultipliers (cfg : ScorerConfig) (weights : List ℝ) :
    List ℝ :=
  if weights.length = 0 then []
  else if weights.length = 1 then weights
  else if stdDevOf weights = 0 then weights
  else
    weights.map fun weight =>
      let deviationFromMean := |weight - meanOf weights|
      let zScore := deviationFromMean / stdDevOf weights
      let amplificationFactor := 1 + zScore * cfg.varianceAmplification
      let amplified := meanOf weights + (weight - meanOf weights) * amplificationFactor
      clamp100 amplified

/-- Source `CommodityScorer.calculateScoreDecay` (src/unnamed/part_002, lines 123-127):
`0` past `maxDistance`, otherwise `exp(-decayFactor * (distance / maxDistance)^2)`. -/
noncomputable def calculateScoreDecay (cfg : ScorerConfig) (distance : ℝ) : ℝ :=
  if distance > cfg.maxDistance then 0
  else Real.exp (-cfg.decayFactor * (distance / cfg.maxDistance) ^ 2)

/-! ### Basic facts about the amplification step -/

theorem varianceOf_nonneg (ws : List ℝ) : 0 ≤ varianceOf ws := by
  unfold varianceOf
  apply div_nonneg
  · exact List.sum_nonneg (by intro x hx; obtain ⟨w, _, rfl⟩ := List.mem_map.1 hx; positivity)
  · exact Nat.cast_nonneg _

theorem stdDevOf_eq_zero_iff (ws : List ℝ) : stdDevOf ws = 0 ↔ varianceOf ws = 0 := by
  unfold stdDevOf
  rw [Real.sqrt_eq_zero (varianceOf_nonneg ws)]

theorem varianceOf_nil : varianceOf [] = 0 := by simp [varianceOf]

theorem varianceOf_singleton (a : ℝ) : varianceOf [a] = 0 := by
  simp [varianceOf, meanOf]

theorem length_calculateVarianceMultipliers (cfg : ScorerConfig) (ws : List ℝ) :
    (calculateVarianceMultipliers cfg ws).length = ws.length := by
  unfold calculateVarianceMultipliers
  split
  · next h => simp [h]
  · split
    · rfl
    · split
      · rfl
      · simp

theorem calculateVarianceMultipliers_of_stdDev_zero (cfg : ScorerConfig)
    (weights : List ℝ) (h0 : stdDevOf weights = 0) :
    calculateVarianceMultipliers cfg weights = weights := by
  unfold calculateVarianceMultipliers
  by_cases hl0 : weights.length = 0
  · rw [if_pos hl0]
    exact (List.length_eq_zero.1 hl0).symm
  · rw [if_neg hl0]
    by_cases hl1 : weights.length = 1
    · rw [if_pos hl1]
    · rw [if_neg hl1, if_pos h0]

theorem calculateVarianceMultipliers_of_stdDev_ne_zero (cfg : ScorerConfig)
    (weights : List ℝ) (hne : stdDevOf weights ≠ 0) :
    calculateVarianceMultipliers cfg weights =
      weights.map fun w =>
        clamp100 (meanOf weights + (w - meanOf weights) *
          (1 + (|w - meanOf weights| / stdDevOf weights) * cfg.varianceAmplification)) := by
  have hlen0 : weights.length ≠ 0 := by
    intro h
    rw [List.length_eq_zero.1 h] at hne
    exact hne ((stdDevOf_eq_zero_iff []).2 varianceOf_nil)
  have hlen1 : weights.length ≠ 1 := by
    intro h
    obtain ⟨a, rfl⟩ := List.length_eq_one.1 h
    exact hne ((stdDevOf_eq_zero_iff [a]).2 (varianceOf_singleton a))
  unfold calculateVarianceMultipliers
  rw [if_neg hlen0, if_neg hlen1, if_neg hne]

/-- C1: for every weight vector with zero population standard deviation,
`calculateVarianceMultipliers` returns the vector unchanged; for every vector with
nonzero standard deviation it returns, slot by slot,
`clamp(mean + (w - mean) * (1 + (|w - mean| / stddev) * varianceAmplification), 0, 100)`
where `mean` and `stddev` are the mean and population standard deviation of the input. -/
theorem varianceMultipliers_follow_spec (cfg : ScorerConfig) (weights : List ℝ) :
    (stdDevOf weights = 0 → calculateVarianceMultipliers cfg weights = weights) ∧
    (stdDevOf weights ≠ 0 →
      calculateVarianceMultipliers cfg weights =
        weights.map fun w =>
          clamp100 (meanOf weights + (w - meanOf weights) *
            (1 + (|w - meanOf weights| / stdDevOf weights) * cfg.varianceAmplification))) :=
  ⟨calculateVarianceMultipliers_of_stdDev_zero cfg weights,
   calculateVarianceMultipliers_of_stdDev_ne_zero cfg weights⟩

/-- Witness for C1 at the spec's test vector `[50,50,50,50,50]`: its standard
deviation is zero and the amplification leaves it unchanged. -/
theorem varianceMultipliers_follow_spec_witness :
    stdDevOf [50, 50, 50, 50, 50] = 0 ∧
    calculateVarianceMultipliers ⟨5000, 2, 1.5⟩ [50, 50, 50, 50, 50] =
      [50, 50, 50, 50, 50] := by
  have h0 : stdDevOf [50, 50, 50, 50, 50] = 0 := by
    apply (stdDevOf_eq_zero_iff _).2
    simp [varianceOf, meanOf]
    norm_num
  exact ⟨h0, (varianceMultipliers_follow_spec ⟨5000, 2, 1.5⟩ [50, 50, 50, 50, 50]).1 h0⟩

/-- C4: the distance decay satisfies `decay(0) = 1`,
`decay(d) = exp(-decayFactor * (d / maxDistance)^2)` for `d ≤ maxDistance`
(so `decay(maxDistance) = exp(-decayFactor)`), and `decay(d) = 0` for
`d > maxDistance` — a hard cutoff. -/
theorem scoreDecay_follows_spec (cfg : ScorerConfig) (h : 0 < cfg.maxDistance)
    (d : ℝ) (hd : 0 ≤ d) :
    calculateScoreDecay cfg 0 = 1 ∧
    (d ≤ cfg.maxDistance →
      calculateScoreDecay cfg d = Real.exp (-cfg.decayFactor * (d / cfg.maxDistance) ^ 2)) ∧
    calculateScoreDecay cfg cfg.maxDistance = Real.exp (-cfg.decayFactor) ∧
    (cfg.maxDistance < d → calculateScoreDecay cfg d = 0) := by
  refine ⟨?_, ?_, ?_, ?_⟩
  · unfold calculateScoreDecay
    rw [if_neg (by simpa using h.le)]
    simp
  · intro hle
    unfold calculateScoreDecay
    rw [if_neg (by simpa using hle)]
  · unfold calculateScoreDecay
    rw [if_neg (by simp)]
    rw [div_self h.ne']
    norm_num
  · intro hgt
    unfold calculateScoreDecay
    rw [if_pos (by simpa using hgt)]

/-- Witness for C4 at the scorer's default configuration and `d = 6000 > 5000`. -/
theorem scoreDecay_follows_spec_witness :
    (0 : ℝ) < 5000 ∧ (0 : ℝ) ≤ 6000 ∧
    (calculateScoreDecay ⟨5000, 2, 1.5⟩ 0 = 1 ∧
     ((6000 : ℝ) ≤ 5000 →
       calculateScoreDecay ⟨5000, 2, 1.5⟩ 6000 =
         Real.exp (-2 * ((6000 : ℝ) / 5000) ^ 2)) ∧
     calculateScoreDecay ⟨5000, 2, 1.5⟩ 5000 = Real.exp (-2) ∧
     ((5000 : ℝ) < 6000 → calculateScoreDecay ⟨5000, 2, 1.5⟩ 6000 = 0)) := by
  refine ⟨by norm_num, by norm_num, ?_⟩
  exact scoreDecay_follows_spec ⟨5000, 2, 1.5⟩ (by norm_num) 6000 (by norm_num)

/-! ### C9: amplification of `[0,100,50,50,50]` -/

theorem meanOf_c9 : meanOf [0, 100, 50, 50, 50] = 50 := by
  simp [meanOf]
  norm_num

theorem stdDevOf_c9 : stdDevOf [0, 100, 50, 50, 50] = Real.sqrt 1000 := by
  unfold stdDevOf
  congr 1
  simp [varianceOf, meanOf]
  norm_num

theorem amplify_c9_eval :
    calculateVarianceMultipliers ⟨5000, 2, 1.5⟩ [0, 100, 50, 50, 50] =
      [0, 100, 50, 50, 50] := by
  have hs : (0 : ℝ) < Real.sqrt 1000 := Real.sqrt_pos.mpr (by norm_num)
  have hne : stdDevOf [0, 100, 50, 50, 50] ≠ 0 := by
    rw [stdDevOf_c9]; exact hs.ne'
  rw [calculateVarianceMultipliers_of_stdDev_ne_zero ⟨5000, 2, 1.5⟩ [0, 100, 50, 50, 50] hne]
  rw [meanOf_c9, stdDevOf_c9]
  have ht : (0 : ℝ) ≤ 50 / Real.sqrt 1000 * 1.5 := by positivity
  simp only [List.map_cons, List.map_nil]
  have habs0 : |(0 : ℝ) - 50| = 50 := by norm_num
  have habs1 : |(100 : ℝ) - 50| = 50 := by norm_num
  have habs2 : |(50 : ℝ) - 50| = 50 - 50 := by norm_num
  rw [habs0, habs1, habs2]
  refine List.cons_eq_cons.2 ⟨?_, List.cons_eq_cons.2 ⟨?_, ?_⟩⟩
  · rw [clamp100_of_nonpos (by nlinarith)]
  · rw [clamp100_of_ge (by nlinarith)]
  · norm_num
    exact clamp100_of_mem (by norm_num) (by norm_num)

/-- C9 counterexample: on input `[0,100,50,50,50]` (default scorer configuration)
the first outlier slot is returned as `0`, at distance exactly `50` from the mean —
the clamp to `[0,100]` keeps it at its original distance, not strictly further. -/
theorem amplify_outlier_not_strictly_further :
    (calculateVarianceMultipliers ⟨5000, 2, 1.5⟩ [0, 100, 50, 50, 50]).headI = 0 ∧
    ¬ (|(calculateVarianceMultipliers ⟨5000, 2, 1.5⟩ [0, 100, 50, 50, 50]).headI -
          meanOf [0, 100, 50, 50, 50]| >
        |(0 : ℝ) - meanOf [0, 100, 50, 50, 50]|) := by
  rw [amplify_c9_eval]
  simp

/-- C9 amended: `amplify([0,100,50,50,50])` returns `[0,100,50,50,50]` — both
outliers are already at the clamp bounds and stay exactly there, at distance 50
from the mean (not strictly further); in particular every output lies in `[0,100]`. -/
theorem amplify_outliers_stay_at_bounds :
    calculateVarianceMultipliers ⟨5000, 2, 1.5⟩ [0, 100, 50, 50, 50] =
      [0, 100, 50, 50, 50] ∧
    meanOf [0, 100, 50, 50, 50] = 50 := ⟨amplify_c9_eval, meanOf_c9⟩

/-! ## Grid data and the base grid score -/

/-- A grid cell as stored in the scorer's `gridMap`
(`{gridId, centerLat, centerLng, commodityCounts}`). -/
structure Grid where
  gridId : String
  centerLat : ℝ
  centerLng : ℝ
  commodityCounts : List ℝ

/-- Source `CommodityScorer.calculateGridScore` (src/unnamed/part_002, lines 174-198):
count-weighted sum of the amplified weights over `min(counts.length, amplified.length)`
slots, normalized by the total count and clamped to 0..100; `0` on empty inputs or a
zero total count.  The optional third argument models `amplifiedWeightsInput`. -/
noncomputable def calculateGridScore (cfg : ScorerConfig) (gridData : Grid)
    (weights : List ℝ) (amplifiedWeightsInput : Option (List ℝ)) : ℝ :=
  let counts := gridData.commodityCounts
  if weights.length = 0 ∨ counts.length = 0 then 0
  else
    let amplifiedWeights := amplifiedWeightsInput.getD (calculateVarianceMultipliers cfg weights)
    let len := min counts.length amplifiedWeights.length
    let totalWeighted := ((List.range len).map fun i => counts.getD i 0 * amplifiedWeights.getD i 0).sum
    let totalCount := ((List.range len).map fun i => counts.getD i 0).sum
    if totalCount = 0 then 0 else clamp100 (totalWeighted / totalCount)

theorem sum_range_getD (xs : List ℝ) :
    ((List.range xs.length).map fun i => xs.getD i 0).sum = xs.sum := by
  induction xs with
  | nil => simp
  | cons a xs ih =>
    rw [List.length_cons, List.range_succ_eq_map, List.map_cons, List.map_map, List.sum_cons]
    simp only [Function.comp_def, List.getD_cons_zero, List.getD_cons_succ]
    rw [ih, List.sum_cons]

theorem sum_range_getD_mul (xs ys : List ℝ) (h : xs.length = ys.length) :
    ((List.range xs.length).map fun i => xs.getD i 0 * ys.getD i 0).sum =
      ((xs.zip ys).map fun p => p.1 * p.2).sum := by
  induction xs generalizing ys with
  | nil => simp
  | cons a xs ih =>
    cases ys with
    | nil => simp at h
    | cons b ys =>
      rw [List.length_cons, List.range_succ_eq_map, List.map_cons, List.map_map,
        List.sum_cons, List.zip_cons_cons, List.map_cons, List.sum_cons]
      simp only [Function.comp_def, List.getD_cons_zero, List.getD_cons_succ]
      rw [ih ys (by simpa using h)]

/-- C2: for a cell whose commodity-count array matches the weight vector in length,
`calculateGridScore` is the count-weighted average of the variance-amplified weights
(`Σ(count_i * amplifiedWeight_i) / Σ(count_i)`), clamped to `[0,100]`, and `0`
whenever the cell's total amenity count is zero. -/
theorem gridScore_is_count_weighted_average (cfg : ScorerConfig) (g : Grid)
    (weights : List ℝ) (h : g.commodityCounts.length = weights.length) :
    calculateGridScore cfg g weights none =
      if g.commodityCounts.sum = 0 then 0
      else clamp100 ((((g.commodityCounts.zip (calculateVarianceMultipliers cfg weights)).map
          fun p => p.1 * p.2).sum) / g.commodityCounts.sum) := by
  have hamp : (calculateVarianceMultipliers cfg weights).length = g.commodityCounts.length := by
    rw [length_calculateVarianceMultipliers, h]
  unfold calculateGridScore
  by_cases h0 : weights.length = 0 ∨ g.commodityCounts.length = 0
  · rw [if_pos h0]
    have hc : g.commodityCounts = [] := by
      rcases h0 with h0 | h0
      · exact List.length_eq_zero.1 (h.trans h0)
      · exact List.length_eq_zero.1 h0
    rw [hc]
    simp
  · rw [if_neg h0]
    simp only [Option.getD_none]
    rw [show min g.commodityCounts.length (calculateVarianceMultipliers cfg weights).length =
        g.commodityCounts.length by rw [hamp]; exact Nat.min_self _]
    rw [sum_range_getD, sum_range_getD_mul _ _ hamp.symm]

/-- Witness for C2 at the spec's end-to-end example: weights `[85,60,40,70,90]`
and a single cell with counts `[15,4,6,3,20]`. -/
theorem gridScore_is_count_weighted_average_witness :
    (Grid.mk "grid_1" 45.5017 (-73.5673) [15, 4, 6, 3, 20]).commodityCounts.length =
      ([85, 60, 40, 70, 90] : List ℝ).length ∧
    calculateGridScore ⟨5000, 2, 2⟩ (Grid.mk "grid_1" 45.5017 (-73.5673) [15, 4, 6, 3, 20])
        [85, 60, 40, 70, 90] none =
      if ([15, 4, 6, 3, 20] : List ℝ).sum = 0 then 0
      else clamp100 ((((([15, 4, 6, 3, 20] : List ℝ).zip
          (calculateVarianceMultipliers ⟨5000, 2, 2⟩ [85, 60, 40, 70, 90])).map
          fun p => p.1 * p.2).sum) / ([15, 4, 6, 3, 20] : List ℝ).sum) := by
  refine ⟨by simp, ?_⟩
  exact gridScore_is_count_weighted_average ⟨5000, 2, 2⟩
    (Grid.mk "grid_1" 45.5017 (-73.5673) [15, 4, 6, 3, 20]) [85, 60, 40, 70, 90] (by simp)

/-! ## Distance, rounding, and the aggregated score -/

/-- A `{lat, lng}` pair. -/
structure Point where
  lat : ℝ
  lng : ℝ

/-- Model of `Math.atan2(y, x)` on real arguments (signed zeros are outside the model). -/
noncomputable def atan2 (y x : ℝ) : ℝ :=
  if 0 < x then Real.arctan (y / x)
  else if x < 0 then
    (if 0 ≤ y then Real.arctan (y / x) + Real.pi else Real.arctan (y / x) - Real.pi)
  else if 0 < y then Real.pi / 2
  else if y < 0 then -(Real.pi / 2)
  else 0

/-- Source `CommodityScorer.calculateDistance` (src/unnamed/part_002, lines 104-116):
Haversine distance in meters. -/
noncomputable def calculateDistance (point1 point2 : Point) : ℝ :=
  let R : ℝ := 6371000
  let dLat := (point2.lat - point1.lat) * Real.pi / 180
  let dLng := (point2.lng - point1.lng) * Real.pi / 180
  let a := Real.sin (dLat / 2) * Real.sin (dLat / 2) +
    Real.cos (point1.lat * Real.pi / 180) * Real.cos (point2.lat * Real.pi / 180) *
      Real.sin (dLng / 2) * Real.sin (dLng / 2)
  let c := 2 * atan2 (Real.sqrt a) (Real.sqrt (1 - a))
  R * c

theorem atan2_zero_one : atan2 0 1 = 0 := by
  unfold atan2
  rw [if_pos one_pos]
  simp [Real.arctan_zero]

theorem calculateDistance_self (p q : Point) (hlat : p.lat = q.lat)
    (hlng : p.lng = q.lng) : calculateDistance p q = 0 := by
  unfold calculateDistance
  rw [hlat, hlng]
  simp only [sub_self, zero_mul, zero_div, Real.sin_zero, mul_zero, zero_add, add_zero]
  rw [Real.sqrt_zero, sub_zero, Real.sqrt_one, atan2_zero_one]
  ring

/-- JavaScript's `Math.round` (round half up). -/
noncomputable def jsRound (x : ℝ) : ℝ := (⌊x + 1 / 2⌋ : ℤ)

/-- Source `Math.round(x * 100) / 100` — round to 2 decimal places. -/
noncomputable def round2 (x : ℝ) : ℝ := jsRound (x * 100) / 100

/-- Source `Math.round(x * 10000) / 10000` — round to 4 decimal places. -/
noncomputable def round4 (x : ℝ) : ℝ := jsRound (x * 10000) / 10000

theorem round2_nonneg {x : ℝ} (h : 0 ≤ x) : 0 ≤ round2 x := by
  unfold round2 jsRound
  have : (0 : ℤ) ≤ ⌊x * 100 + 1 / 2⌋ := by
    apply Int.le_floor.2
    push_cast
    nlinarith
  positivity

theorem round2_le_100 {x : ℝ} (h : x ≤ 100) : round2 x ≤ 100 := by
  unfold round2 jsRound
  rw [div_le_iff₀ (by norm_num)]
  have : ⌊x * 100 + 1 / 2⌋ ≤ 10000 := by
    rw [Int.floor_le_iff]
    push_cast
    nlinarith
  calc ((⌊x * 100 + 1 / 2⌋ : ℤ) : ℝ) ≤ ((10000 : ℤ) : ℝ) := by exact_mod_cast this
    _ = 100 * 100 := by norm_num

/-- One entry of the `breakdown` array produced by `calculateAggregatedScore`:
`{gridId, distance, contribution, weight, score}` (each rounded as in the source). -/
structure BreakdownEntry where
  gridId : String
  distance : ℝ
  contribution : ℝ
  weight : ℝ
  score : ℝ

/-- The object returned by `calculateAggregatedScore`. -/
structure AggregatedScoreResult where
  gridId : String
  baseScore : ℝ
  aggregatedScore : ℝ
  contributingGrids : ℕ
  breakdown : List BreakdownEntry

/-- Source `baseScores?.get(gridId) ?? this.calculateGridScore(grid, weights, amplified)` —
the per-grid base-score lookup used inside `calculateAggregatedScore`. -/
noncomputable def baseScoreLookup (cfg : ScorerConfig) (baseScores : Option (List (String × ℝ)))
    (weights amplified : List ℝ) (gridId : String) (grid : Grid) : ℝ :=
  match baseScores with
  | some bs =>
    match bs.find? fun p => p.1 = gridId with
    | some p => p.2
    | none => calculateGridScore cfg grid weights (some amplified)
  | none => calculateGridScore cfg grid weights (some amplified)

/-- The distance from the target's center to a grid's center, as computed inside
`calculateAggregatedScore`'s `forEach` loop. -/
noncomputable def distTo (target g : Grid) : ℝ :=
  calculateDistance ⟨target.centerLat, target.centerLng⟩ ⟨g.centerLat, g.centerLng⟩

/-- The grids `calculateAggregatedScore` does not skip: the loop returns early iff
`distance > maxDistance && gridId !== targetGridId`. -/
noncomputable def includedGrids (cfg : ScorerConfig) (targetGridId : String)
    (gridMap : List Grid) (target : Grid) : List Grid :=
  gridMap.filter fun g => ¬(distTo target g > cfg.maxDistance ∧ g.gridId ≠ targetGridId)

/-- Body of `calculateAggregatedScore` once the target has been found in the map. -/
noncomputable def calculateAggregatedScoreAux (cfg : ScorerConfig) (targetGridId : String)
    (gridMap : List Grid) (weights : List ℝ) (baseScores : Option (List (String × ℝ)))
    (amplifiedWeightsInput : Option (List ℝ)) (target : Grid) : AggregatedScoreResult :=
  let amplified := amplifiedWeightsInput.getD (calculateVarianceMultipliers cfg weights)
  let baseScore := baseScoreLookup cfg baseScores weights amplified targetGridId target
  let included := includedGrids cfg targetGridId gridMap target
  let scoreOf := fun g : Grid => baseScoreLookup cfg baseScores weights amplified g.gridId g
  let totalWeightedScore :=
    (included.map fun g => scoreOf g * calculateScoreDecay cfg (distTo target g)).sum
  let totalWeight := (included.map fun g => calculateScoreDecay cfg (distTo target g)).sum
  let breakdown := included.map fun g =>
    BreakdownEntry.mk g.gridId (jsRound (distTo target g))
      (round2 (scoreOf g * calculateScoreDecay cfg (distTo target g)))
      (round4 (calculateScoreDecay cfg (distTo target g))) (round2 (scoreOf g))
  let aggregatedScore := if totalWeight > 0 then totalWeightedScore / totalWeight else baseScore
  ⟨targetGridId, round2 baseScore, round2 aggregatedScore, breakdown.length,
    breakdown.mergeSort fun a b => decide (a.distance ≤ b.distance)⟩

/-- Source `CommodityScorer.calculateAggregatedScore` (src/unnamed/part_002, lines 222-283):
iterates over the whole grid map, skips cells beyond `maxDistance` (except the target),
accumulates decay-weighted base scores, normalizes by the total decay weight (falling
back to the target's base score when it is not positive), and returns the rounded
scores together with a breakdown sorted ascending by (rounded) distance.
The grid map is modelled as a list of cells in insertion order; `Map.get` is `find?`. -/
noncomputable def calculateAggregatedScore (cfg : ScorerConfig) (targetGridId : String)
    (gridMap : List Grid) (weights : List ℝ) (baseScores : Option (List (String × ℝ)))
    (amplifiedWeightsInput : Option (List ℝ)) : AggregatedScoreResult :=
  match gridMap.find? fun g => g.gridId = targetGridId with
  | none => ⟨targetGridId, 0, 0, 0, []⟩
  | some target =>
    calculateAggregatedScoreAux cfg targetGridId gridMap weights baseScores
      amplifiedWeightsInput target

/-- Modelled from the spec (§4.4 aggregated score): for every cell of the map within
`maxDistance` of the target (the target itself included, at distance 0 and decay 1),
weight its base score by the decay of its distance; the aggregate is
`Σ(baseScore_i × decay_i) / Σ(decay_i)`, falling back to the target's own base score
when the total decay weight is zero. -/
noncomputable def aggregateSpec (cfg : ScorerConfig) (targetGridId : String)
    (gridMap : List Grid) (weights : List ℝ) : ℝ :=
  match gridMap.find? fun g => g.gridId = targetGridId with
  | none => 0
  | some target =>
    let cells := gridMap.filter fun g =>
      distTo target g ≤ cfg.maxDistance ∨ g.gridId = targetGridId
    let base := fun g : Grid =>
      calculateGridScore cfg g weights (some (calculateVarianceMultipliers cfg weights))
    let totalDecay := (cells.map fun g => calculateScoreDecay cfg (distTo target g)).sum
    if totalDecay = 0 then base target
    else (cells.map fun g => base g * calculateScoreDecay cfg (distTo target g)).sum / totalDecay

/-! ### Facts needed for the aggregated-score claim -/

theorem calculateAggregatedScore_of_find {cfg : ScorerConfig} {targetGridId : String}
    {gridMap : List Grid} {target : Grid} (weights : List ℝ)
    (baseScores : Option (List (String × ℝ))) (amplifiedWeightsInput : Option (List ℝ))
    (hfind : gridMap.find? (fun g => g.gridId = targetGridId) = some target) :
    calculateAggregatedScore cfg targetGridId gridMap weights baseScores
        amplifiedWeightsInput =
      calculateAggregatedScoreAux cfg targetGridId gridMap weights baseScores
        amplifiedWeightsInput target := by
  unfold calculateAggregatedScore
  rw [hfind]

theorem aggregateSpec_of_find {cfg : ScorerConfig} {targetGridId : String}
    {gridMap : List Grid} {target : Grid} (weights : List ℝ)
    (hfind : gridMap.find? (fun g => g.gridId = targetGridId) = some target) :
    aggregateSpec cfg targetGridId gridMap weights =
      (let cells := gridMap.filter fun g =>
        distTo target g ≤ cfg.maxDistance ∨ g.gridId = targetGridId
      let base := fun g : Grid =>
        calculateGridScore cfg g weights (some (calculateVarianceMultipliers cfg weights))
      let totalDecay := (cells.map fun g => calculateScoreDecay cfg (distTo target g)).sum
      if totalDecay = 0 then base target
      else (cells.map fun g => base g * calculateScoreDecay cfg (distTo target g)).sum /
        totalDecay) := by
  unfold aggregateSpec
  rw [hfind]

theorem calculateScoreDecay_nonneg (cfg : ScorerConfig) (d : ℝ) :
    0 ≤ calculateScoreDecay cfg d := by
  unfold calculateScoreDecay
  split
  · exact le_refl 0
  · exact (Real.exp_pos _).le

theorem calculateScoreDecay_zero (cfg : ScorerConfig) (h : 0 ≤ cfg.maxDistance) :
    calculateScoreDecay cfg 0 = 1 := by
  unfold calculateScoreDecay
  rw [if_neg (not_lt.2 h)]
  norm_num

theorem clamp100_nonneg (x : ℝ) : 0 ≤ clamp100 x := le_max_left 0 _

theorem clamp100_le_100 (x : ℝ) : clamp100 x ≤ 100 :=
  max_le (by norm_num) (min_le_left _ _)

theorem calculateGridScore_nonneg (cfg : ScorerConfig) (g : Grid) (weights : List ℝ)
    (amp : Option (List ℝ)) : 0 ≤ calculateGridScore cfg g weights amp := by
  simp only [calculateGridScore]
  split
  · exact le_refl 0
  · split
    · exact le_refl 0
    · exact clamp100_nonneg _

theorem calculateGridScore_le_100 (cfg : ScorerConfig) (g : Grid) (weights : List ℝ)
    (amp : Option (List ℝ)) : calculateGridScore cfg g weights amp ≤ 100 := by
  simp only [calculateGridScore]
  split
  · norm_num
  · split
    · norm_num
    · exact clamp100_le_100 _

theorem filter_eq_singleton_of_find {gridMap : List Grid} {targetGridId : String}
    {target : Grid}
    (hfind : gridMap.find? (fun g => g.gridId = targetGridId) = some target)
    (hnodup : (gridMap.map Grid.gridId).Nodup)
    (p : Grid → Bool) (hp : ∀ g ∈ gridMap, p g = true ↔ g.gridId = targetGridId) :
    gridMap.filter p = [target] := by
  induction gridMap with
  | nil => simp at hfind
  | cons h t ih =>
    rw [List.map_cons, List.nodup_cons] at hnodup
    by_cases hh : h.gridId = targetGridId
    · have htarget : target = h := by
        rw [List.find?_cons_of_pos _ (by simpa using hh)] at hfind
        exact (Option.some_inj.1 hfind).symm
      have hph : p h = true := (hp h (List.mem_cons_self h t)).2 hh
      have hfilter_t : t.filter p = [] := by
        rw [List.filter_eq_nil_iff]
        intro g hg habs
        have hgid : g.gridId = targetGridId := (hp g (List.mem_cons_of_mem h hg)).1 habs
        exact hnodup.1 (by
          rw [hh, ← hgid]
          exact List.mem_map_of_mem Grid.gridId hg)
      rw [List.filter_cons_of_pos hph, hfilter_t, htarget]
    · have hph : p h = false := by
        by_contra habs
        rw [Bool.not_eq_false] at habs
        exact hh ((hp h (List.mem_cons_self h t)).1 habs)
      have hfind' : t.find? (fun g => g.gridId = targetGridId) = some target := by
        rwa [List.find?_cons_of_neg _ (by simpa using hh)] at hfind
      rw [List.filter_cons_of_neg (by simp [hph])]
      exact ih hfind' hnodup.2 fun g hg => hp g (List.mem_cons_of_mem h hg)

theorem includedGrids_eq_spec_filter (cfg : ScorerConfig) (targetGridId : String)
    (gridMap : List Grid) (target : Grid) :
    includedGrids cfg targetGridId gridMap target =
      gridMap.filter fun g => distTo target g ≤ cfg.maxDistance ∨ g.gridId = targetGridId := by
  unfold includedGrids
  apply List.filter_congr
  intro g _
  simp only [decide_eq_decide]
  constructor
  · intro hng
    by_cases hd : distTo target g ≤ cfg.maxDistance
    · exact Or.inl hd
    · right
      by_contra hid
      exact hng ⟨not_le.1 hd, hid⟩
  · rintro (hle | hid) ⟨hgt, hne⟩
    · exact absurd hle (not_le.2 hgt)
    · exact hne hid

theorem aux_aggregatedScore_eq_round2_spec (cfg : ScorerConfig)
    (targetGridId : String) (gridMap : List Grid) (weights : List ℝ) (target : Grid)
    (hfind : gridMap.find? (fun g => g.gridId = targetGridId) = some target) :
    (calculateAggregatedScore cfg targetGridId gridMap weights none none).aggregatedScore =
      round2 (aggregateSpec cfg targetGridId gridMap weights) := by
  rw [calculateAggregatedScore_of_find weights none none hfind,
    aggregateSpec_of_find weights hfind]
  simp only [calculateAggregatedScoreAux, baseScoreLookup, Option.getD_none]
  rw [includedGrids_eq_spec_filter]
  congr 1
  have hW0 : 0 ≤ (List.map (fun g => calculateScoreDecay cfg (distTo target g))
      (List.filter (fun g =>
        decide (distTo target g ≤ cfg.maxDistance ∨ g.gridId = targetGridId)) gridMap)).sum := by
    apply List.sum_nonneg
    intro x hx
    obtain ⟨g, _, rfl⟩ := List.mem_map.1 hx
    exact calculateScoreDecay_nonneg cfg _
  by_cases hW : (List.map (fun g => calculateScoreDecay cfg (distTo target g))
      (List.filter (fun g =>
        decide (distTo target g ≤ cfg.maxDistance ∨ g.gridId = targetGridId)) gridMap)).sum = 0
  · rw [if_neg (by rw [hW]; exact lt_irrefl 0), if_pos hW]
  · rw [if_pos (lt_of_le_of_ne hW0 (Ne.symm hW)), if_neg hW]

theorem aux_baseScore_eq (cfg : ScorerConfig) (targetGridId : String) (gridMap : List Grid)
    (weights : List ℝ) (target : Grid)
    (hfind : gridMap.find? (fun g => g.gridId = targetGridId) = some target) :
    (calculateAggregatedScore cfg targetGridId gridMap weights none none).baseScore =
      round2 (calculateGridScore cfg target weights
        (some (calculateVarianceMultipliers cfg weights))) := by
  rw [calculateAggregatedScore_of_find weights none none hfind]
  rfl

theorem aux_aggregatedScore_bounds (cfg : ScorerConfig) (targetGridId : String)
    (gridMap : List Grid) (weights : List ℝ) (target : Grid)
    (hfind : gridMap.find? (fun g => g.gridId = targetGridId) = some target) :
    0 ≤ (calculateAggregatedScore cfg targetGridId gridMap weights none none).aggregatedScore ∧
    (calculateAggregatedScore cfg targetGridId gridMap weights none none).aggregatedScore ≤
      100 := by
  rw [calculateAggregatedScore_of_find weights none none hfind]
  simp only [calculateAggregatedScoreAux, baseScoreLookup, Option.getD_none]
  have hraw : 0 ≤ (if (List.map (fun g => calculateScoreDecay cfg (distTo target g))
        (includedGrids cfg targetGridId gridMap target)).sum > 0 then
      (List.map (fun g =>
          calculateGridScore cfg g weights (some (calculateVarianceMultipliers cfg weights)) *
            calculateScoreDecay cfg (distTo target g))
        (includedGrids cfg targetGridId gridMap target)).sum /
        (List.map (fun g => calculateScoreDecay cfg (distTo target g))
          (includedGrids cfg targetGridId gridMap target)).sum
      else calculateGridScore cfg target weights
        (some (calculateVarianceMultipliers cfg weights))) ∧
      (if (List.map (fun g => calculateScoreDecay cfg (distTo target g))
        (includedGrids cfg targetGridId gridMap target)).sum > 0 then
      (List.map (fun g =>
          calculateGridScore cfg g weights (some (calculateVarianceMultipliers cfg weights)) *
            calculateScoreDecay cfg (distTo target g))
        (includedGrids cfg targetGridId gridMap target)).sum /
        (List.map (fun g => calculateScoreDecay cfg (distTo target g))
          (includedGrids cfg targetGridId gridMap target)).sum
      else calculateGridScore cfg target weights
        (some (calculateVarianceMultipliers cfg weights))) ≤ 100 := by
    split
    · next hWpos =>
      have hS0 : 0 ≤ (List.map (fun g =>
          calculateGridScore cfg g weights (some (calculateVarianceMultipliers cfg weights)) *
            calculateScoreDecay cfg (distTo target g))
          (includedGrids cfg targetGridId gridMap target)).sum := by
        apply List.sum_nonneg
        intro x hx
        obtain ⟨g, _, rfl⟩ := List.mem_map.1 hx
        exact mul_nonneg (calculateGridScore_nonneg cfg g weights _)
          (calculateScoreDecay_nonneg cfg _)
      have hSW : (List.map (fun g =>
          calculateGridScore cfg g weights (some (calculateVarianceMultipliers cfg weights)) *
            calculateScoreDecay cfg (distTo target g))
          (includedGrids cfg targetGridId gridMap target)).sum ≤
          100 * (List.map (fun g => calculateScoreDecay cfg (distTo target g))
            (includedGrids cfg targetGridId gridMap target)).sum := by
        rw [← List.sum_map_mul_left]
        apply List.sum_le_sum
        intro g _
        exact mul_le_mul_of_nonneg_right (calculateGridScore_le_100 cfg g weights _)
          (calculateScoreDecay_nonneg cfg _)
      constructor
      · exact div_nonneg hS0 (le_of_lt hWpos)
      · rw [div_le_iff₀ hWpos]
        linarith
    · exact ⟨calculateGridScore_nonneg cfg target weights _,
        calculateGridScore_le_100 cfg target weights _⟩
  exact ⟨round2_nonneg hraw.1, round2_le_100 hraw.2⟩

theorem aux_breakdown_sorted (cfg : ScorerConfig) (targetGridId : String)
    (gridMap : List Grid) (weights : List ℝ) (target : Grid)
    (hfind : gridMap.find? (fun g => g.gridId = targetGridId) = some target) :
    List.Sorted (fun a b : BreakdownEntry => a.distance ≤ b.distance)
      (calculateAggregatedScore cfg targetGridId gridMap weights none none).breakdown := by
  rw [calculateAggregatedScore_of_find weights none none hfind]
  simp only [calculateAggregatedScoreAux, baseScoreLookup, Option.getD_none]
  apply List.Pairwise.imp (fun hab => of_decide_eq_true hab)
  apply List.sorted_mergeSort
  · intro a b c hab hbc
    simp only [decide_eq_true_eq] at *
    exact le_trans hab hbc
  · intro a b
    simpa using le_total a.distance b.distance

theorem aux_isolated_aggregated_eq_base (cfg : ScorerConfig) (targetGridId : String)
    (gridMap : List Grid) (weights : List ℝ) (target : Grid)
    (hmax : 0 < cfg.maxDistance)
    (hfind : gridMap.find? (fun g => g.gridId = targetGridId) = some target)
    (hnodup : (gridMap.map Grid.gridId).Nodup)
    (hfar : ∀ g ∈ gridMap, g.gridId ≠ targetGridId → cfg.maxDistance < distTo target g) :
    (calculateAggregatedScore cfg targetGridId gridMap weights none none).aggregatedScore =
      (calculateAggregatedScore cfg targetGridId gridMap weights none none).baseScore := by
  rw [calculateAggregatedScore_of_find weights none none hfind]
  simp only [calculateAggregatedScoreAux, baseScoreLookup, Option.getD_none]
  have hI : includedGrids cfg targetGridId gridMap target = [target] := by
    unfold includedGrids
    apply filter_eq_singleton_of_find hfind hnodup
    intro g hg
    constructor
    · intro habs
      by_contra hne
      exact (of_decide_eq_true habs) ⟨hfar g hg hne, hne⟩
    · intro hgid
      apply decide_eq_true
      rintro ⟨_, hne⟩
      exact hne hgid
  rw [hI]
  have hd : distTo target target = 0 := calculateDistance_self _ _ rfl rfl
  simp only [List.map_cons, List.map_nil, List.sum_cons, List.sum_nil, add_zero, hd,
    calculateScoreDecay_zero cfg hmax.le]
  rw [if_pos one_pos, mul_one, div_one]

/-- C3 amended: for every grid map containing the target cell (unique ids,
positive `maxDistance`), the returned `aggregatedScore` equals
`Σ(baseScore_i * decay_i) / Σ(decay_i)` over every cell within `maxDistance` of the
target (the target included at distance 0, decay 1), with fallback to the target's
own base score when the total decay weight is zero, *after rounding half-up to two
decimal places* (the source rounds via `Math.round(x * 100) / 100`); the returned
`baseScore` is the target's base score rounded the same way; both lie in `[0,100]`;
the breakdown is sorted ascending by distance; and a target with no other cell within
`maxDistance` has `aggregatedScore = baseScore` exactly. -/
theorem aggregatedScore_follows_spec_up_to_rounding (cfg : ScorerConfig)
    (targetGridId : String) (gridMap : List Grid) (weights : List ℝ) (target : Grid)
    (hmax : 0 < cfg.maxDistance)
    (hfind : gridMap.find? (fun g => g.gridId = targetGridId) = some target)
    (hnodup : (gridMap.map Grid.gridId).Nodup) :
    (calculateAggregatedScore cfg targetGridId gridMap weights none none).aggregatedScore =
      round2 (aggregateSpec cfg targetGridId gridMap weights) ∧
    (calculateAggregatedScore cfg targetGridId gridMap weights none none).baseScore =
      round2 (calculateGridScore cfg target weights
        (some (calculateVarianceMultipliers cfg weights))) ∧
    (0 ≤ (calculateAggregatedScore cfg targetGridId gridMap weights none none).baseScore ∧
      (calculateAggregatedScore cfg targetGridId gridMap weights none none).baseScore ≤ 100) ∧
    (0 ≤ (calculateAggregatedScore cfg targetGridId gridMap weights none none).aggregatedScore ∧
      (calculateAggregatedScore cfg targetGridId gridMap weights
        none none).aggregatedScore ≤ 100) ∧
    List.Sorted (fun a b : BreakdownEntry => a.distance ≤ b.distance)
      (calculateAggregatedScore cfg targetGridId gridMap weights none none).breakdown ∧
    ((∀ g ∈ gridMap, g.gridId ≠ targetGridId → cfg.maxDistance < distTo target g) →
      (calculateAggregatedScore cfg targetGridId gridMap weights none none).aggregatedScore =
        (calculateAggregatedScore cfg targetGridId gridMap weights none none).baseScore) := by
  refine ⟨aux_aggregatedScore_eq_round2_spec cfg targetGridId gridMap weights target hfind,
    aux_baseScore_eq cfg targetGridId gridMap weights target hfind, ?_,
    aux_aggregatedScore_bounds cfg targetGridId gridMap weights target hfind,
    aux_breakdown_sorted cfg targetGridId gridMap weights target hfind,
    aux_isolated_aggregated_eq_base cfg targetGridId gridMap weights target hmax hfind hnodup⟩
  rw [aux_baseScore_eq cfg targetGridId gridMap weights target hfind]
  exact ⟨round2_nonneg (calculateGridScore_nonneg cfg target weights _),
    round2_le_100 (calculateGridScore_le_100 cfg target weights _)⟩

/-- Witness for the amended C3 at a concrete one-cell map. -/
theorem aggregatedScore_follows_spec_up_to_rounding_witness :
    (0 : ℝ) < (5000 : ℝ) ∧
    [Grid.mk "a" 0 0 [1]].find? (fun g => g.gridId = "a") = some (Grid.mk "a" 0 0 [1]) ∧
    (List.map Grid.gridId [Grid.mk "a" 0 0 [1]]).Nodup ∧
    (calculateAggregatedScore ⟨5000, 2, 1.5⟩ "a" [Grid.mk "a" 0 0 [1]]
        [10] none none).aggregatedScore =
      round2 (aggregateSpec ⟨5000, 2, 1.5⟩ "a" [Grid.mk "a" 0 0 [1]] [10]) := by
  have hfind : [Grid.mk "a" 0 0 [1]].find? (fun g => g.gridId = "a") =
      some (Grid.mk "a" 0 0 [1]) := by
    rw [List.find?_cons_of_pos _ (by simp)]
  exact ⟨by norm_num, hfind, by simp,
    (aggregatedScore_follows_spec_up_to_rounding ⟨5000, 2, 1.5⟩ "a" [Grid.mk "a" 0 0 [1]]
      [10] (Grid.mk "a" 0 0 [1]) (by norm_num) hfind (by simp)).1⟩

/-! ### C3 counterexample: the returned aggregated score is rounded -/

theorem sqrt_25 : Real.sqrt 25 = 5 := by
  rw [show (25 : ℝ) = 5 ^ 2 by norm_num, Real.sqrt_sq (by norm_num)]

theorem amplify_c3 : calculateVarianceMultipliers ⟨5000, 2, 1.5⟩ [0, 10] = [0, 17.5] := by
  have hmean : meanOf [0, 10] = 5 := by
    simp [meanOf]
    norm_num
  have hstd : stdDevOf [0, 10] = 5 := by
    unfold stdDevOf
    rw [show varianceOf [0, 10] = 25 by simp [varianceOf, hmean]; norm_num, sqrt_25]
  rw [calculateVarianceMultipliers_of_stdDev_ne_zero ⟨5000, 2, 1.5⟩ [0, 10]
    (by rw [hstd]; norm_num)]
  rw [hmean, hstd]
  simp only [List.map_cons, List.map_nil]
  refine List.cons_eq_cons.2 ⟨?_, ?_⟩
  · rw [show (5 : ℝ) + (0 - 5) * (1 + |(0 : ℝ) - 5| / 5 * 1.5) = -7.5 by norm_num]
    rw [clamp100_of_nonpos (by norm_num)]
  · rw [show (5 : ℝ) + (10 - 5) * (1 + |(10 : ℝ) - 5| / 5 * 1.5) = 17.5 by norm_num]
    rw [clamp100_of_mem (by norm_num) (by norm_num)]

theorem baseA_c3 :
    calculateGridScore ⟨5000, 2, 1.5⟩ (Grid.mk "a" 0 0 [1, 1]) [0, 10]
      (some [0, 17.5]) = 8.75 := by
  simp only [calculateGridScore]
  rw [if_neg (by simp)]
  simp only [Option.getD_some, List.length_cons, List.length_nil]
  norm_num [List.range_succ, List.range_zero]
  exact clamp100_of_mem (by norm_num) (by norm_num)

theorem baseB_c3 :
    calculateGridScore ⟨5000, 2, 1.5⟩ (Grid.mk "b" 0 0 [0, 1]) [0, 10]
      (some [0, 17.5]) = 17.5 := by
  simp only [calculateGridScore]
  rw [if_neg (by simp)]
  simp only [Option.getD_some, List.length_cons, List.length_nil]
  norm_num [List.range_succ, List.range_zero]
  exact clamp100_of_mem (by norm_num) (by norm_num)

theorem find_c3 :
    [Grid.mk "a" 0 0 [1, 1], Grid.mk "b" 0 0 [0, 1]].find? (fun g => g.gridId = "a") =
      some (Grid.mk "a" 0 0 [1, 1]) := by
  rw [List.find?_cons_of_pos _ (by simp)]

theorem aggregateSpec_c3 :
    aggregateSpec ⟨5000, 2, 1.5⟩ "a"
      [Grid.mk "a" 0 0 [1, 1], Grid.mk "b" 0 0 [0, 1]] [0, 10] = 13.125 := by
  rw [aggregateSpec_of_find _ find_c3]
  have hdA : distTo (Grid.mk "a" 0 0 [1, 1]) (Grid.mk "a" 0 0 [1, 1]) = 0 :=
    calculateDistance_self _ _ rfl rfl
  have hdB : distTo (Grid.mk "a" 0 0 [1, 1]) (Grid.mk "b" 0 0 [0, 1]) = 0 :=
    calculateDistance_self _ _ rfl rfl
  simp only [List.filter_cons, List.filter_nil]
  rw [if_pos (decide_eq_true (Or.inr trivial)),
    if_pos (decide_eq_true (Or.inl (by rw [hdB]; norm_num)))]
  simp only [List.map_cons, List.map_nil, List.sum_cons, List.sum_nil]
  rw [hdA, hdB, calculateScoreDecay_zero _ (by norm_num), amplify_c3, baseA_c3, baseB_c3]
  rw [if_neg (by norm_num)]
  norm_num

/-- C3 counterexample: for the map `{a ↦ counts [1,1], b ↦ counts [0,1]}` (both cells
at the same coordinates) and weights `[0,10]`, the raw weighted average is `13.125`
but `calculateAggregatedScore` returns `13.13` — the returned `aggregatedScore` does
not equal `Σ(baseScore_i * decay_i) / Σ(decay_i)` because the source rounds it to two
decimal places. -/
theorem aggregatedScore_not_exact_weighted_average :
    (calculateAggregatedScore ⟨5000, 2, 1.5⟩ "a"
        [Grid.mk "a" 0 0 [1, 1], Grid.mk "b" 0 0 [0, 1]] [0, 10] none none).aggregatedScore ≠
      aggregateSpec ⟨5000, 2, 1.5⟩ "a"
        [Grid.mk "a" 0 0 [1, 1], Grid.mk "b" 0 0 [0, 1]] [0, 10] := by
  rw [aux_aggregatedScore_eq_round2_spec ⟨5000, 2, 1.5⟩ "a"
    [Grid.mk "a" 0 0 [1, 1], Grid.mk "b" 0 0 [0, 1]] [0, 10] (Grid.mk "a" 0 0 [1, 1]) find_c3]
  rw [aggregateSpec_c3]
  unfold round2 jsRound
  rw [show (13.125 : ℝ) * 100 + 1 / 2 = ((1313 : ℤ) : ℝ) by norm_num, Int.floor_intCast]
  norm_num

/-! ## Cache layer (src/db/connection.js and the Mongoose schemas)

Timestamps are integers (milliseconds); coordinates are rationals — neither enters
any real-valued computation here.  The `Place` schema declares `place_id` unique and
the `Grid` schema declares `geohash` unique. -/

/-- The `fetchStatus` enum of the Grid schema: `['pending', 'cached', 'expired']`. -/
inductive FetchStatus
  | pending
  | cached
  | expired
  deriving DecidableEq

/-- A stored `Place` document (`place_id` carries the unique index). -/
structure PlaceDoc where
  place_id : String
  location : ℚ × ℚ
  commodityTypes : List String
  geohash : String
  fetchedAt : ℤ
  deriving DecidableEq

/-- A stored `Grid` document (`geohash` carries the unique index). -/
structure GridDoc where
  geohash : String
  centerLat : ℚ
  centerLng : ℚ
  fetchStatus : FetchStatus
  fetchedAt : Option ℤ
  expiresAt : Option ℤ
  lastUpdated : ℤ
  deriving DecidableEq

/-- The repository state: the `Place` and `Grid` collections. -/
structure Db where
  places : List PlaceDoc
  grids : List GridDoc
  deriving DecidableEq

/-- The `$gt: now` check on `expiresAt`: a missing `expiresAt` never matches. -/
def expiresAfter (e : Option ℤ) (now : ℤ) : Bool :=
  match e with
  | some t => decide (now < t)
  | none => false

/-- The `Grid.find({geohash: {$in: ids}, fetchStatus: 'cached', expiresAt: {$gt: now}})`
query issued by `CacheManager.isCachedInRadius`. -/
def gridFindCachedValid (grids : List GridDoc) (ids : List String) (now : ℤ) :
    List GridDoc :=
  grids.filter fun g =>
    ids.contains g.geohash && decide (g.fetchStatus = FetchStatus.cached) &&
      expiresAfter g.expiresAt now

/-- Source `CacheManager.isCachedInRadius` (src/db/connection.js lines 76-101): builds
`[centerGridId, ...neighbors(centerGridId)]`, queries the grid collection for cells of
that set with `fetchStatus = 'cached'` and `expiresAt > now`, and returns their geohash
strings; a thrown repository error is caught and yields `[]`. `neighbors` stands for
the external `ngeohash.neighbors` call; the repository argument is an `Except` so that
a failing query can be modelled. -/
def isCachedInRadius (neighbors : String → List String) (repo : Except String Db)
    (centerGridId : String) (now : ℤ) : List String :=
  let allGridIds := centerGridId :: neighbors centerGridId
  match repo with
  | Except.error _ => []
  | Except.ok db => (gridFindCachedValid db.grids allGridIds now).map (·.geohash)

theorem expiresAfter_eq_true_iff (e : Option ℤ) (now : ℤ) :
    expiresAfter e now = true ↔ ∃ t, e = some t ∧ now < t := by
  cases e <;> simp [expiresAfter]

theorem contains_eq_true_iff (l : List String) (a : String) :
    l.contains a = true ↔ a ∈ l := by simp

/-- C7: `isCachedInRadius` returns exactly those ids among `{centerId} ∪ neighbors`
whose stored grid cell has `fetchStatus = cached` and `expiresAt` strictly later than
`now` (so a cached cell whose `expiresAt` lies in the past is excluded), and returns
the empty set — never an error — when the repository query fails. -/
theorem isCachedInRadius_follows_spec (neighbors : String → List String) (db : Db)
    (centerGridId : String) (now : ℤ) :
    (∀ id, id ∈ isCachedInRadius neighbors (Except.ok db) centerGridId now ↔
      (id ∈ centerGridId :: neighbors centerGridId ∧
        ∃ g ∈ db.grids, g.geohash = id ∧ g.fetchStatus = FetchStatus.cached ∧
          ∃ t, g.expiresAt = some t ∧ now < t)) ∧
    (∀ e, isCachedInRadius neighbors (Except.error e) centerGridId now = []) := by
  constructor
  · intro id
    unfold isCachedInRadius gridFindCachedValid
    simp only [List.mem_map, List.mem_filter, Bool.and_eq_true, decide_eq_true_eq,
      contains_eq_true_iff, expiresAfter_eq_true_iff]
    constructor
    · rintro ⟨g, ⟨hg, ⟨⟨hin, hstatus⟩, t, het, hlt⟩⟩, rfl⟩
      exact ⟨by simpa using hin, g, hg, rfl, hstatus, t, het, hlt⟩
    · rintro ⟨hin, g, hg, rfl, hstatus, t, het, hlt⟩
      exact ⟨g, ⟨hg, ⟨⟨by simpa using hin, hstatus⟩, t, het, hlt⟩⟩, rfl⟩
  · intro e
    rfl

/-- Witness for C7: with a valid cached cell `"c"` and a cached-but-expired
neighbor `"n1"` at `now = 100`, the valid cell is returned and the expired one
is excluded. -/
theorem isCachedInRadius_follows_spec_witness :
    "c" ∈ isCachedInRadius (fun _ => ["n1"])
      (Except.ok ⟨[], [⟨"c", 0, 0, FetchStatus.cached, some 0, some 200, 0⟩,
        ⟨"n1", 0, 0, FetchStatus.cached, some 0, some 50, 0⟩]⟩) "c" 100 ∧
    "n1" ∉ isCachedInRadius (fun _ => ["n1"])
      (Except.ok ⟨[], [⟨"c", 0, 0, FetchStatus.cached, some 0, some 200, 0⟩,
        ⟨"n1", 0, 0, FetchStatus.cached, some 0, some 50, 0⟩]⟩) "c" 100 := by
  constructor
  · exact ((isCachedInRadius_follows_spec (fun _ => ["n1"])
      ⟨[], [⟨"c", 0, 0, FetchStatus.cached, some 0, some 200, 0⟩,
        ⟨"n1", 0, 0, FetchStatus.cached, some 0, some 50, 0⟩]⟩ "c" 100).1 "c").mpr
      ⟨by simp, ⟨"c", 0, 0, FetchStatus.cached, some 0, some 200, 0⟩, by simp, rfl, rfl,
        200, rfl, by norm_num⟩
  · intro habs
    rcases ((isCachedInRadius_follows_spec (fun _ => ["n1"])
      ⟨[], [⟨"c", 0, 0, FetchStatus.cached, some 0, some 200, 0⟩,
        ⟨"n1", 0, 0, FetchStatus.cached, some 0, some 50, 0⟩]⟩ "c" 100).1 "n1").mp habs
      with ⟨-, g, hg, hgeo, -, t, het, hlt⟩
    simp only [List.mem_cons, List.not_mem_nil, or_false] at hg
    rcases hg with rfl | rfl
    · simp at hgeo
    · simp only [Option.some_inj] at het
      omega

/-! ## Storing places (C6, C8) -/

/-- Mongoose `Place.insertMany(docs, {ordered: false})` against the unique `place_id`
index: documents are processed in order; one whose `place_id` already exists is
skipped and flags the bulk-write error code `11000`; the others are inserted. -/
def insertLoop (stored : List PlaceDoc) (docs : List PlaceDoc) (errCode : Option ℤ) :
    List PlaceDoc × Option ℤ :=
  match docs with
  | [] => (stored, errCode)
  | d :: ds =>
    if stored.any (fun p => p.place_id = d.place_id) then
      insertLoop stored ds (some 11000)
    else
      insertLoop (stored ++ [d]) ds errCode

/-- The upsert `Grid.updateOne` with `$set` of the cache metadata, as issued by
`CacheManager.storePlaces`. -/
def gridUpsert (grids : List GridDoc) (gridId : String) (centerLat centerLng : ℚ)
    (now ttl : ℤ) : List GridDoc :=
  if grids.any (fun g => g.geohash = gridId) then
    grids.map fun g =>
      if g.geohash = gridId then
        { g with
          centerLat := centerLat
          centerLng := centerLng
          fetchStatus := FetchStatus.cached
          fetchedAt := some now
          expiresAt := some (now + ttl)
          lastUpdated := now }
      else g
  else
    grids ++ [⟨gridId, centerLat, centerLng, FetchStatus.cached, some now,
      some (now + ttl), now⟩]

/-- Source `CacheManager.storePlaces` (src/db/connection.js lines 209-241): maps the fetched
places to documents keyed by `place_id` and tagged with the grid's geohash, inserts
them with `insertMany({ordered: false})` — the attached catch rethrows the bulk error
only when its code is not `11000` (duplicate key) — then upserts the grid's metadata
with `fetchStatus: 'cached'` and a fresh `expiresAt = now + cacheTTL`. -/
def storePlaces (cacheTTL : ℤ) (db : Db) (gridId : String) (places : List PlaceDoc)
    (commodityType : String) (centerLat centerLng : ℚ) (now : ℤ) : Except String Db :=
  let placesWithGeohash := places.map fun place =>
    PlaceDoc.mk place.place_id place.location [commodityType] gridId now
  let inserted := insertLoop db.places placesWithGeohash none
  match inserted.2 with
  | some code =>
    if code ≠ 11000 then Except.error "insertMany failed"
    else Except.ok ⟨inserted.1, gridUpsert db.grids gridId centerLat centerLng now cacheTTL⟩
  | none => Except.ok ⟨inserted.1, gridUpsert db.grids gridId centerLat centerLng now cacheTTL⟩

theorem insertLoop_errCode (docs : List PlaceDoc) (stored : List PlaceDoc)
    (errCode : Option ℤ) :
    (insertLoop stored docs errCode).2 = errCode ∨
      (insertLoop stored docs errCode).2 = some 11000 := by
  induction docs generalizing stored errCode with
  | nil => left; rfl
  | cons d ds ih =>
    unfold insertLoop
    split
    · rcases ih stored (some 11000) with h | h
      · right; exact h
      · right; exact h
    · exact ih (stored ++ [d]) errCode

theorem insertLoop_nodup (docs : List PlaceDoc) (stored : List PlaceDoc)
    (errCode : Option ℤ) (hnodup : (stored.map PlaceDoc.place_id).Nodup) :
    ((insertLoop stored docs errCode).1.map PlaceDoc.place_id).Nodup := by
  induction docs generalizing stored errCode with
  | nil => exact hnodup
  | cons d ds ih =>
    unfold insertLoop
    split
    · exact ih stored (some 11000) hnodup
    · next hnew =>
      apply ih (stored ++ [d]) errCode
      rw [List.map_append, List.map_cons, List.map_nil]
      apply List.Nodup.append hnodup (List.nodup_singleton _)
      intro a ha hb
      rw [List.mem_singleton] at hb
      obtain ⟨p, hp, hpe⟩ := List.mem_map.1 ha
      rw [List.any_eq_true] at hnew
      exact hnew ⟨p, hp, by simp [hpe, hb]⟩

theorem insertLoop_mem (docs : List PlaceDoc) (stored : List PlaceDoc)
    (errCode : Option ℤ) (pid : String) :
    pid ∈ (insertLoop stored docs errCode).1.map PlaceDoc.place_id ↔
      (pid ∈ stored.map PlaceDoc.place_id ∨ pid ∈ docs.map PlaceDoc.place_id) := by
  induction docs generalizing stored errCode with
  | nil => simp [insertLoop]
  | cons d ds ih =>
    unfold insertLoop
    split
    · next hdup =>
      rw [ih stored (some 11000)]
      rw [List.any_eq_true] at hdup
      obtain ⟨p, hp, hpe⟩ := hdup
      rw [decide_eq_true_eq] at hpe
      constructor
      · rintro (h | h)
        · exact Or.inl h
        · exact Or.inr (List.mem_cons_of_mem _ (by simpa using h))
      · rintro (h | h)
        · exact Or.inl h
        · rw [List.map_cons, List.mem_cons] at h
          rcases h with rfl | h
          · exact Or.inl (hpe ▸ List.mem_map_of_mem PlaceDoc.place_id hp)
          · exact Or.inr h
    · rw [ih (stored ++ [d]) errCode]
      simp only [List.map_append, List.map_cons, List.map_nil, List.mem_append,
        List.mem_singleton, List.mem_cons]
      tauto

theorem filter_place_id_length_one {l : List PlaceDoc} {pid : String}
    (hnodup : (l.map PlaceDoc.place_id).Nodup) (hmem : pid ∈ l.map PlaceDoc.place_id) :
    (l.filter fun q => q.place_id = pid).length = 1 := by
  induction l with
  | nil => simp at hmem
  | cons h t ih =>
    rw [List.map_cons, List.nodup_cons] at hnodup
    by_cases hh : h.place_id = pid
    · rw [List.filter_cons_of_pos (by simpa using hh)]
      have hnil : t.filter (fun q => decide (q.place_id = pid)) = [] := by
        rw [List.filter_eq_nil_iff]
        intro q hq habs
        apply hnodup.1
        rw [hh, ← of_decide_eq_true habs]
        exact List.mem_map_of_mem PlaceDoc.place_id hq
      rw [hnil]
      rfl
    · rw [List.filter_cons_of_neg (by simpa using hh)]
      apply ih hnodup.2
      rw [List.map_cons, List.mem_cons] at hmem
      rcases hmem with hmem | hmem
      · exact absurd hmem.symm hh
      · exact hmem

/-- C6: storing the same `externalId` (`place_id`) twice — here via two successive
`storePlaces` calls over overlapping grids — raises no error (the duplicate-key code
11000 is absorbed) and leaves at most one stored record per `place_id`: after both
stores each stored `place_id` is unique and each fetched place has exactly one record. -/
theorem storePlaces_idempotent_per_place_id (cacheTTL : ℤ) (db : Db)
    (g1 g2 : String) (ps : List PlaceDoc) (commodityType : String)
    (la1 ln1 la2 ln2 : ℚ) (t1 t2 : ℤ)
    (hnodup : (db.places.map PlaceDoc.place_id).Nodup) :
    ∃ db1 db2,
      storePlaces cacheTTL db g1 ps commodityType la1 ln1 t1 = Except.ok db1 ∧
      storePlaces cacheTTL db1 g2 ps commodityType la2 ln2 t2 = Except.ok db2 ∧
      (db2.places.map PlaceDoc.place_id).Nodup ∧
      ∀ p ∈ ps, (db2.places.filter fun q => q.place_id = p.place_id).length = 1 := by
  have hok : ∀ (d : Db) (g : String) (la ln : ℚ) (t : ℤ),
      (d.places.map PlaceDoc.place_id).Nodup →
      ∃ d', storePlaces cacheTTL d g ps commodityType la ln t = Except.ok d' ∧
        d'.places = (insertLoop d.places
          (ps.map fun place => PlaceDoc.mk place.place_id place.location
            [commodityType] g t) none).1 := by
    intro d g la ln t _
    simp only [storePlaces]
    rcases insertLoop_errCode (ps.map fun place => PlaceDoc.mk place.place_id
        place.location [commodityType] g t) d.places none with h | h
    · rw [h]
      exact ⟨_, rfl, rfl⟩
    · rw [h]
      exact ⟨_, rfl, rfl⟩
  obtain ⟨db1, hs1, hp1⟩ := hok db g1 la1 ln1 t1 hnodup
  have hnodup1 : (db1.places.map PlaceDoc.place_id).Nodup := by
    rw [hp1]
    exact insertLoop_nodup _ _ _ hnodup
  obtain ⟨db2, hs2, hp2⟩ := hok db1 g2 la2 ln2 t2 hnodup1
  have hnodup2 : (db2.places.map PlaceDoc.place_id).Nodup := by
    rw [hp2]
    exact insertLoop_nodup _ _ _ hnodup1
  refine ⟨db1, db2, hs1, hs2, hnodup2, ?_⟩
  intro p hp
  apply filter_place_id_length_one hnodup2
  rw [hp2, insertLoop_mem]
  right
  rw [List.map_map]
  exact List.mem_map.2 ⟨p, hp, rfl⟩

/-- Witness for C6: the same single-place result set stored under two different
grid ids against an initially empty repository. -/
theorem storePlaces_idempotent_per_place_id_witness :
    (((⟨[], []⟩ : Db).places.map PlaceDoc.place_id).Nodup) ∧
    ∃ db1 db2,
      storePlaces 1000 ⟨[], []⟩ "g1" [⟨"p1", (0, 0), ["restaurant"], "", 0⟩]
        "restaurant" 0 0 0 = Except.ok db1 ∧
      storePlaces 1000 db1 "g2" [⟨"p1", (0, 0), ["restaurant"], "", 0⟩]
        "restaurant" 0 0 0 = Except.ok db2 ∧
      (db2.places.map PlaceDoc.place_id).Nodup ∧
      ∀ p ∈ [(⟨"p1", (0, 0), ["restaurant"], "", 0⟩ : PlaceDoc)],
        (db2.places.filter fun q => q.place_id = p.place_id).length = 1 :=
  ⟨by simp, storePlaces_idempotent_per_place_id 1000 ⟨[], []⟩ "g1" "g2"
    [⟨"p1", (0, 0), ["restaurant"], "", 0⟩] "restaurant" 0 0 0 0 0 0 (by simp)⟩

/-! ## The fetch coordinator (`DataManager.fetchData`, both copies in
src/db/connection.js) -/

/-- The object returned by `DataManager.fetchData`.  The catch branch returns only
`{places, gridId: null, error}`; its remaining fields are modelled as the neutral
values `0`/`[]` with `gridId = none`. -/
structure FetchResult where
  places : List PlaceDoc
  gridId : Option String
  gridsInRadius : ℕ
  cachedGrids : List String
  newGrids : List String
  count : ℕ
  error : Option String
  deriving DecidableEq

/-- The awaited sub-results consumed by the exported `DataManager.fetchData`
(src/db/connection.js lines 334-387): the center geohash, the footprint
(`getGridsInRadius`), the cached-grid ids (`isCachedInRadius`), the places found for
the cached grids (`Place.find`), the provider response (`fetchFromGooglePlaces`), and
whether the repository write inside `storePlaces` throws. -/
structure FetchEnv where
  centerGridId : String
  gridsInRadius : List String
  cachedGridIds : List String
  cachedPlaces : List PlaceDoc
  apiPlaces : List PlaceDoc
  storeFails : Bool
  deriving DecidableEq

/-- Source `gridsInRadius.filter(g => !cachedGridIds.includes(g))` — the uncached subset. -/
def uncachedOf (env : FetchEnv) : List String :=
  env.gridsInRadius.filter fun g => ¬ env.cachedGridIds.contains g

/-- The exported `DataManager.fetchData` (src/db/connection.js lines 334-387), with
the number of `fetchFromGooglePlaces` provider calls and the `(gridId, places)` pairs
passed to completed `storePlaces` calls made explicit in the result.  The provider is
called once, before the per-grid store loop, iff the uncached subset is non-empty; a
non-empty response is stored under every uncached grid id; a repository write failure
makes `storePlaces` throw (its own catch rethrows), landing in `fetchData`'s catch,
which returns `{places: [], gridId: null, error}` with nothing stored. -/
def fetchData (env : FetchEnv) : FetchResult × ℕ × List (String × List PlaceDoc) :=
  let cachedPlaces := if env.cachedGridIds.length > 0 then env.cachedPlaces else []
  let uncachedGridIds := uncachedOf env
  if uncachedGridIds.length > 0 then
    if env.apiPlaces.length > 0 then
      if env.storeFails then
        (⟨[], none, 0, [], [], 0, some "repository write failed"⟩, 1, [])
      else
        (⟨cachedPlaces ++ env.apiPlaces, some env.centerGridId, env.gridsInRadius.length,
          env.cachedGridIds, uncachedGridIds, (cachedPlaces ++ env.apiPlaces).length,
          none⟩, 1, uncachedGridIds.map fun g => (g, env.apiPlaces))
    else
      (⟨cachedPlaces, some env.centerGridId, env.gridsInRadius.length, env.cachedGridIds,
        [], cachedPlaces.length, none⟩, 1, [])
  else
    (⟨cachedPlaces, some env.centerGridId, env.gridsInRadius.length, env.cachedGridIds,
      [], cachedPlaces.length, none⟩, 0, [])

/-- The legacy second copy of `DataManager.fetchData` (src/db/connection.js lines
624-668): its per-grid loop starts with `await this.cacheManager.isCached(gridId)`,
but the legacy `CacheManager` defines no `isCached` method, so the first iteration
throws a `TypeError` that the surrounding catch converts to
`{places: [], gridId: null, error}`; the provider function (`googleFetchFn`) is never
invoked.  Only with an empty footprint does the loop body never run, returning an
empty success result. -/
def fetchDataLegacy (gridsInRadius : List String) (centerGridId : String) :
    FetchResult × ℕ × List (String × List PlaceDoc) :=
  match gridsInRadius with
  | [] => (⟨[], some centerGridId, 0, [], [], 0, none⟩, 0, [])
  | _ :: _ =>
    (⟨[], none, 0, [], [], 0, some "this.cacheManager.isCached is not a function"⟩, 0, [])

/-- C5 counterexample: a query whose footprint consists of two uncached cells, run
through the legacy `fetchData`: it issues `0` provider calls — not exactly one — and
no cell receives any result (nothing is stored; the result is the catch's error
object). -/
theorem fetchDataLegacy_zero_provider_calls :
    (fetchDataLegacy ["u", "v"] "u").2.1 ≠ 1 ∧
    (fetchDataLegacy ["u", "v"] "u").2.2 = [] ∧
    (fetchDataLegacy ["u", "v"] "u").1.places = [] ∧
    (fetchDataLegacy ["u", "v"] "u").1.error ≠ none := by
  refine ⟨by decide, rfl, rfl, by decide⟩

/-- C5 amended: the exported `fetchData` issues exactly one provider call whenever the
footprint contains an uncached cell, and — when the provider response is non-empty and
the repository writes succeed — stores a copy of that single response under every
uncached cell id; the legacy copy of `fetchData` instead throws `TypeError` on its
first loop iteration (its `CacheManager` has no `isCached`), is caught, issues zero
provider calls, stores nothing and returns `{places: [], gridId: null, error}`. -/
theorem fetchData_one_provider_call_copy_per_uncached_cell :
    (∀ env : FetchEnv, uncachedOf env ≠ [] → (fetchData env).2.1 = 1) ∧
    (∀ env : FetchEnv, uncachedOf env ≠ [] → env.apiPlaces ≠ [] →
      env.storeFails = false →
      (fetchData env).2.2 = (uncachedOf env).map fun g => (g, env.apiPlaces)) ∧
    (∀ (ids : List String) (c : String), ids ≠ [] →
      (fetchDataLegacy ids c).2.1 = 0 ∧ (fetchDataLegacy ids c).2.2 = [] ∧
        (fetchDataLegacy ids c).1.places = [] ∧
        (fetchDataLegacy ids c).1.error ≠ none) := by
  refine ⟨?_, ?_, ?_⟩
  · intro env hne
    unfold fetchData
    rw [if_pos (by simpa [List.length_pos] using hne)]
    split
    · split <;> rfl
    · rfl
  · intro env hne hapi hsf
    unfold fetchData
    rw [if_pos (by simpa [List.length_pos] using hne),
      if_pos (by simpa [List.length_pos] using hapi), hsf]
    rfl
  · intro ids c hids
    cases ids with
    | nil => exact absurd rfl hids
    | cons i is => exact ⟨rfl, rfl, rfl, by simp [fetchDataLegacy]⟩

/-- Witness for the amended C5 at a concrete environment with two uncached cells. -/
theorem fetchData_one_provider_call_copy_per_uncached_cell_witness :
    uncachedOf ⟨"u", ["u", "v"], [], [], [⟨"p1", (0, 0), ["restaurant"], "", 0⟩],
        false⟩ ≠ [] ∧
    (fetchData ⟨"u", ["u", "v"], [], [], [⟨"p1", (0, 0), ["restaurant"], "", 0⟩],
        false⟩).2.1 = 1 ∧
    (fetchData ⟨"u", ["u", "v"], [], [], [⟨"p1", (0, 0), ["restaurant"], "", 0⟩],
        false⟩).2.2 =
      (uncachedOf ⟨"u", ["u", "v"], [], [], [⟨"p1", (0, 0), ["restaurant"], "", 0⟩],
        false⟩).map fun g => (g, [⟨"p1", (0, 0), ["restaurant"], "", 0⟩]) := by
  refine ⟨by decide, ?_, ?_⟩
  · exact fetchData_one_provider_call_copy_per_uncached_cell.1
      ⟨"u", ["u", "v"], [], [], [⟨"p1", (0, 0), ["restaurant"], "", 0⟩], false⟩
      (by decide)
  · exact fetchData_one_provider_call_copy_per_uncached_cell.2.1
      ⟨"u", ["u", "v"], [], [], [⟨"p1", (0, 0), ["restaurant"], "", 0⟩], false⟩
      (by decide) (by decide) rfl

/-- C8 counterexample: provider succeeds (`apiPlaces = [p1]`), the cache write fails;
the exported `fetchData` returns the catch's `{places: [], gridId: null, error}` —
the caller does not receive the freshly fetched place. -/
theorem fetchData_write_failure_empties_result :
    (fetchData ⟨"u", ["u"], [], [], [⟨"p1", (0, 0), ["restaurant"], "", 0⟩],
        true⟩).1.places = [] ∧
    (⟨"p1", (0, 0), ["restaurant"], "", 0⟩ : PlaceDoc) ∉
      (fetchData ⟨"u", ["u"], [], [], [⟨"p1", (0, 0), ["restaurant"], "", 0⟩],
        true⟩).1.places ∧
    (fetchData ⟨"u", ["u"], [], [], [⟨"p1", (0, 0), ["restaurant"], "", 0⟩],
        true⟩).1.error = some "repository write failed" := by
  refine ⟨rfl, by decide, rfl⟩

/-- C8 amended: when the provider call succeeds but the repository write fails,
`storePlaces` rethrows the error (its catch block is `throw error`), `fetchData`'s
top-level catch absorbs it — so the call itself does not throw — but the caller
receives `{places: [], gridId: null, error: message}` rather than the freshly fetched
places, and nothing is recorded as stored. -/
theorem fetchData_write_failure_caught_not_swallowed (env : FetchEnv)
    (hne : uncachedOf env ≠ []) (hapi : env.apiPlaces ≠ [])
    (hsf : env.storeFails = true) :
    fetchData env = (⟨[], none, 0, [], [], 0, some "repository write failed"⟩, 1, []) := by
  unfold fetchData
  rw [if_pos (by simpa [List.length_pos] using hne),
    if_pos (by simpa [List.length_pos] using hapi), hsf]
  rfl

/-- Witness for the amended C8. -/
theorem fetchData_write_failure_caught_not_swallowed_witness :
    uncachedOf ⟨"u", ["u"], [], [], [⟨"p1", (0, 0), ["restaurant"], "", 0⟩],
        true⟩ ≠ [] ∧
    fetchData ⟨"u", ["u"], [], [], [⟨"p1", (0, 0), ["restaurant"], "", 0⟩], true⟩ =
      (⟨[], none, 0, [], [], 0, some "repository write failed"⟩, 1, []) :=
  ⟨by decide, fetchData_write_failure_caught_not_swallowed
    ⟨"u", ["u"], [], [], [⟨"p1", (0, 0), ["restaurant"], "", 0⟩], true⟩
    (by decide) (by decide) rfl⟩

/-! ## `ScoringMap.setWeight` (src/web/CalculateScore.js) -/

/-- An element of an array passed to `setWeight`.  Only the element's kind matters to
the claim (the source performs no element check at all). -/
inductive JsElem
  | num (x : ℚ)
  | str (s : String)
  | bool (b : Bool)
  | null
  deriving DecidableEq

/-- A JavaScript value as passed to `ScoringMap.setWeight`: the check inspects only
array-ness (`Array.isArray`) and length, so one level of array structure suffices. -/
inductive JsVal
  | num (x : ℚ)
  | str (s : String)
  | bool (b : Bool)
  | null
  | undef
  | arr (xs : List JsElem)
  deriving DecidableEq

/-- Whether an array slot holds a number. -/
def JsElem.isNumber : JsElem → Bool
  | JsElem.num _ => true
  | _ => false

/-- The `ScoringMap` state (src/web/CalculateScore.js lines 1-8): only the fields
relevant to `setWeight` are carried. -/
structure ScoringMap where
  gridSize : ℕ
  center : ℕ
  weight : List JsElem
  deriving DecidableEq

/-- Source `ScoringMap.setWeight` (src/web/CalculateScore.js lines 56-62): assigns the
argument to `this.weight` when `Array.isArray(weight) && weight.length === 5`,
otherwise throws `"Weight must be an array of size 5"`, leaving `this.weight`
unchanged.  Returned as the (possibly updated) map together with the thrown
message, if any. -/
def setWeight (m : ScoringMap) (weight : JsVal) : ScoringMap × Option String :=
  match weight with
  | JsVal.arr xs =>
    if xs.length = 5 then ({ m with weight := xs }, none)
    else (m, some "Weight must be an array of size 5")
  | _ => (m, some "Weight must be an array of size 5")

/-- C10 counterexample: an array of five strings — not numeric preference slots — is
accepted by `setWeight` without error and stored as the new weight vector. -/
theorem setWeight_accepts_non_numeric_array :
    (setWeight ⟨9, 4, []⟩ (JsVal.arr [JsElem.str "a", JsElem.str "b", JsElem.str "c",
      JsElem.str "d", JsElem.str "e"])).2 = none ∧
    (setWeight ⟨9, 4, []⟩ (JsVal.arr [JsElem.str "a", JsElem.str "b", JsElem.str "c",
      JsElem.str "d", JsElem.str "e"])).1.weight =
      [JsElem.str "a", JsElem.str "b", JsElem.str "c", JsElem.str "d", JsElem.str "e"] ∧
    ([JsElem.str "a", JsElem.str "b", JsElem.str "c", JsElem.str "d",
      JsElem.str "e"].all JsElem.isNumber) = false :=
  ⟨rfl, rfl, rfl⟩

/-- C10 amended: `setWeight` accepts exactly the arrays of length 5 — without any
numeric check on the elements — storing them as the weight vector; for every argument
that is not an array of length 5 it throws `"Weight must be an array of size 5"` and
leaves the previously stored weight vector unchanged. -/
theorem setWeight_requires_array_of_length_five :
    (∀ (m : ScoringMap) (v : JsVal), (¬ ∃ xs, v = JsVal.arr xs ∧ xs.length = 5) →
      setWeight m v = (m, some "Weight must be an array of size 5")) ∧
    (∀ (m : ScoringMap) (xs : List JsElem), xs.length = 5 →
      setWeight m (JsVal.arr xs) = ({ m with weight := xs }, none)) := by
  constructor
  · intro m v h
    cases v with
    | arr xs =>
      simp only [setWeight]
      rw [if_neg fun hlen => h ⟨xs, rfl, hlen⟩]
    | num x => rfl
    | str s => rfl
    | bool b => rfl
    | null => rfl
    | undef => rfl
  · intro m xs h
    simp only [setWeight]
    rw [if_pos h]

/-- Witness for the amended C10: a non-array argument is rejected with the map
unchanged, and a 5-element numeric array is accepted. -/
theorem setWeight_requires_array_of_length_five_witness :
    (¬ ∃ xs, JsVal.num 3 = JsVal.arr xs ∧ xs.length = 5) ∧
    setWeight ⟨9, 4, [JsElem.num 1, JsElem.num 2, JsElem.num 3, JsElem.num 4,
        JsElem.num 5]⟩ (JsVal.num 3) =
      (⟨9, 4, [JsElem.num 1, JsElem.num 2, JsElem.num 3, JsElem.num 4, JsElem.num 5]⟩,
        some "Weight must be an array of size 5") ∧
    ([JsElem.num 10, JsElem.num 20, JsElem.num 30, JsElem.num 40,
        JsElem.num 50] : List JsElem).length = 5 ∧
    setWeight ⟨9, 4, []⟩ (JsVal.arr [JsElem.num 10, JsElem.num 20, JsElem.num 30,
        JsElem.num 40, JsElem.num 50]) =
      (⟨9, 4, [JsElem.num 10, JsElem.num 20, JsElem.num 30, JsElem.num 40,
        JsElem.num 50]⟩, none) := by
  have hna : ¬ ∃ xs, JsVal.num 3 = JsVal.arr xs ∧ xs.length = 5 := by
    rintro ⟨xs, h, -⟩
    cases h
  refine ⟨hna, ?_, rfl, ?_⟩
  · exact setWeight_requires_array_of_length_five.1
      ⟨9, 4, [JsElem.num 1, JsElem.num 2, JsElem.num 3, JsElem.num 4, JsElem.num 5]⟩
      (JsVal.num 3) hna
  · exact setWeight_requires_array_of_length_five.2 ⟨9, 4, []⟩
      [JsElem.num 10, JsElem.num 20, JsElem.num 30, JsElem.num 40, JsElem.num 50] rfl

end ConuhacksCLM
